import Mathlib

/-!
# Verification of the NPT timecode library

A shallow embedding of `src/index.js` of `little-core-labs/npt-timecode`.

JavaScript numbers are modelled as `JSNum`: either NaN or an exact rational.
IEEE-754 rounding is not modelled: all arithmetic in this file is exact
rational arithmetic mirroring the formulas of the source text.  `toFixed(3)`
followed by `parseFloat` is modelled as rounding to the nearest multiple of
`1/1000` (ties towards the larger value, as ECMA-262 specifies for
`toFixed`).
-/

-- The Batteries definitions of rational arithmetic are `@[irreducible]`,
-- which blocks `decide` on concrete rational computations.  Reducibility is
-- an elaboration-only attribute, so restoring the default is sound.
set_option allowUnsafeReducibility true in
attribute [semireducible] Rat.mul Rat.inv Rat.add Rat.sub Rat.ofScientific

deriving instance DecidableEq for Except

/-- The `NOW` constant of the source (`const NOW = -1`). -/
def NOW : ℚ := -1

/-- A JavaScript number: NaN or an exact rational value. -/
inductive JSNum where
  | nan : JSNum
  | num : ℚ → JSNum
deriving DecidableEq, Repr

/-- `Number.isNaN` on a `JSNum`. -/
def JSNum.isNaN : JSNum → Bool
  | .nan => true
  | .num _ => false

/-- JavaScript `<` between two numbers (any comparison with NaN is false). -/
def jsLtb : JSNum → JSNum → Bool
  | .num a, .num b => a < b
  | _, _ => false

/-- JavaScript `>=` between two numbers (any comparison with NaN is false). -/
def jsGeb : JSNum → JSNum → Bool
  | .num a, .num b => b ≤ a
  | _, _ => false

/-- JavaScript subtraction; NaN propagates. -/
def jsSub : JSNum → JSNum → JSNum
  | .num a, .num b => .num (a - b)
  | _, _ => .nan

/-- JavaScript truthiness of a number: `0` and `NaN` are falsy. -/
def jsNumTruthy : JSNum → Bool
  | .nan => false
  | .num q => q ≠ 0

/-- Model of `parseFloat(x.toFixed(3))`: round to the nearest multiple of
`1/1000`, ties towards the larger value. -/
def roundTo3 (x : ℚ) : ℚ := (⌊x * 1000 + 1 / 2⌋ : ℚ) / 1000

/-- The record returned by `getComputedTime` in the source. -/
structure Computed where
  totalMilliseconds : ℚ
  totalSeconds : ℚ
  totalMinutes : ℚ
  totalHours : ℚ
  milliseconds : ℚ
  seconds : ℚ
  minutes : ℚ
  hours : ℚ
  ms : ℚ
deriving DecidableEq, Repr

/-- `getComputedTime(value)` from `src/index.js`: decompose a seconds value
into hours/minutes/seconds/milliseconds plus "total" variants. -/
def getComputedTime (value : ℚ) : Computed :=
  let totalMilliseconds := value / 1000
  let totalSeconds := value
  let totalMinutes := totalSeconds / 60
  let totalHours := totalMinutes / 60
  let hours : ℚ := (⌊totalHours⌋ : ℚ)
  let minutes : ℚ := (⌊(totalHours - hours) * 60⌋ : ℚ)
  let seconds : ℚ := (⌊totalSeconds - (hours * 60 * 60) - (minutes * 60)⌋ : ℚ)
  let milliseconds : ℚ :=
    1000 * roundTo3 ((totalSeconds - (hours * 60 * 60) - (minutes * 60)) - seconds)
  { totalMilliseconds, totalSeconds, totalMinutes, totalHours,
    milliseconds, seconds, minutes, hours,
    ms := milliseconds }

/-- The argument of `getComputedSeconds`: a plain object with optional
numeric `hours`/`minutes`/`seconds`/`milliseconds`/`ms` fields.  `none`
models an absent (or `undefined`) field. -/
structure TimeParts where
  hours : Option ℚ := none
  minutes : Option ℚ := none
  seconds : Option ℚ := none
  milliseconds : Option ℚ := none
  ms : Option ℚ := none
deriving DecidableEq, Repr

/-- `getComputedSeconds(opts)` from `src/index.js`.  The destructuring
`const { hours, minutes, seconds, milliseconds, ms = milliseconds } = opts`
makes `ms` default to `milliseconds` only when the `ms` key is undefined;
`x || 0` on an optional numeric field is modelled by `Option.getD 0`. -/
def getComputedSeconds (opts : TimeParts) : ℚ :=
  let hours := opts.hours
  let minutes := opts.minutes
  let seconds := opts.seconds
  let milliseconds := opts.milliseconds
  let ms : Option ℚ := match opts.ms with
    | some x => some x
    | none => milliseconds
  let total : ℚ := 0
  let total := total + 60 * 60 * hours.getD 0
  let total := total + 60 * minutes.getD 0
  let total := total + seconds.getD 0
  let total := total + ms.getD 0 / 1000
  total

/-- The `recompose` formula exactly as the specification words it:
"`hours*3600 + minutes*60 + seconds + (ms||0)/1000` ... (`milliseconds`
takes precedence if both given)".  Used only to compare the specification
against `getComputedSeconds`. -/
def getComputedSecondsSpec (opts : TimeParts) : ℚ :=
  let eff : ℚ := match opts.milliseconds with
    | some x => x
    | none => opts.ms.getD 0
  opts.hours.getD 0 * 3600 + opts.minutes.getD 0 * 60 + opts.seconds.getD 0 + eff / 1000

/-- A JavaScript value, restricted to the shapes the library dispatches on.
Objects are split by shape: `timeObj` is any object whose `value` property
is a number (for example a `Time` instance), `partsObj` any object with
`hours`/`minutes`/`seconds`/`milliseconds`/`ms` fields, `pairObj` any
object with `start`/`stop` fields. -/
inductive JSVal where
  | undef : JSVal
  | nullv : JSVal
  | nan : JSVal
  | num : ℚ → JSVal
  | str : String → JSVal
  | boolv : Bool → JSVal
  | timeObj : JSNum → JSVal
  | partsObj : TimeParts → JSVal
  | pairObj : JSVal → JSVal → JSVal
  | arr : List JSVal → JSVal

/-- JavaScript truthiness of a `JSVal` (`undefined`, `null`, `NaN`, `0`,
`""` and `false` are falsy; every object is truthy). -/
def JSVal.truthy : JSVal → Bool
  | .undef => false
  | .nullv => false
  | .nan => false
  | .num q => q ≠ 0
  | .str s => s ≠ ""
  | .boolv b => b
  | .timeObj _ => true
  | .partsObj _ => true
  | .pairObj _ _ => true
  | .arr _ => true

/-- Split a character list at every character satisfying `p`, like
JavaScript's `String.prototype.split` with a one-character separator
(so `"".split` gives `[""]` and separators at the ends give empty parts). -/
def splitChar (p : Char → Bool) : List Char → List (List Char)
  | [] => [[]]
  | c :: cs =>
    if p c then [] :: splitChar p cs
    else
      match splitChar p cs with
      | [] => [[c]]
      | g :: gs => (c :: g) :: gs

/-- A non-empty all-digit character list read as a natural number. -/
def parseNatDigits (cs : List Char) : Option Nat :=
  if cs.isEmpty then none
  else if cs.all Char.isDigit then
    some (cs.foldl (fun acc c => 10 * acc + (c.toNat - 48)) 0)
  else none

/-- An unsigned integer group of an NPT string. -/
def parseGroupInt (cs : List Char) : Option ℚ :=
  (parseNatDigits cs).map fun n => (n : ℚ)

/-- The seconds group of an NPT string: digits with an optional decimal
fraction (`1*DIGIT ["." *DIGIT]`). -/
def parseSecsGroup (cs : List Char) : Option ℚ :=
  match splitChar (· = '.') cs with
  | [i] => parseGroupInt i
  | [i, f] =>
    match parseNatDigits i with
    | some iv =>
      if f.all Char.isDigit then
        some ((iv : ℚ) +
          (f.foldl (fun acc c => 10 * acc + (c.toNat - 48)) 0 : ℚ) / 10 ^ f.length)
      else none
    | none => none
  | _ => none

/-- Modelled from the spec: the external `normalplaytime` parser
(`npt.parse`), which is a package dependency and not part of this
repository's sources.  Per §6 of the specification it accepts
`[hours:][minutes:]seconds[.fraction]` — one to three colon-delimited
numeric groups, the rightmost being seconds with an optional fraction —
and returns the parsed time in milliseconds, or fails (`null`). -/
def nptParse (s : String) : Option ℚ :=
  match splitChar (· = ':') s.data with
  | [secs] => (parseSecsGroup secs).map (1000 * ·)
  | [mins, secs] =>
    match parseGroupInt mins, parseSecsGroup secs with
    | some m, some sec => some (1000 * (60 * m + sec))
    | _, _ => none
  | [hrs, mins, secs] =>
    match parseGroupInt hrs, parseGroupInt mins, parseSecsGroup secs with
    | some h, some m, some sec => some (1000 * (60 * 60 * h + 60 * m + sec))
    | _, _, _ => none
  | _ => none

example : nptParse "05:5.5" = some 305500 := by decide
example : nptParse "" = none := by decide
example : nptParse "now" = none := by decide
example : nptParse "00:30" = some 30000 := by decide

/-- Decimal digits of a natural number (`fuel`-driven so that the kernel
can evaluate it; `fuel = n + 1` always suffices). -/
def natDigitsAux : Nat → Nat → List Char
  | 0, _ => []
  | _ + 1, 0 => []
  | fuel + 1, n => natDigitsAux fuel (n / 10) ++ [Char.ofNat (48 + n % 10)]

/-- Decimal representation of a natural number. -/
def natToChars (n : Nat) : List Char :=
  if n = 0 then ['0'] else natDigitsAux (n + 1) n

/-- The least `k` such that `q * 10 ^ k` is an integer, if the decimal
expansion of `q` terminates within 40 digits. -/
def findTermK (q : ℚ) : Option Nat :=
  (List.range 40).find? fun k => (q * 10 ^ k).den = 1

/-- Left-pad a digit list with `'0'` to length `k`. -/
def padLeftZeros (k : Nat) (cs : List Char) : List Char :=
  List.replicate (k - cs.length) '0' ++ cs

/-- Model of JavaScript `String(x)` for a non-negative exact rational with
a terminating decimal expansion: integer part, then the fractional digits
with no trailing zeros — which is exactly the shortest representation
JavaScript prints for such values.  Values whose expansion does not
terminate only arise from double rounding, which this embedding does not
model; for them a placeholder digit string is produced (no claim proved
here evaluates that branch). -/
def ratToCharsNN (q : ℚ) : List Char :=
  let ip : Nat := (⌊q⌋).toNat
  let frac : ℚ := q - (⌊q⌋ : ℚ)
  if frac = 0 then natToChars ip
  else
    match findTermK frac with
    | some k => natToChars ip ++ '.' :: padLeftZeros k (natToChars (frac * 10 ^ k).num.toNat)
    | none => natToChars ip ++ ['.', '?']

/-- Model of JavaScript `String(x)` for an exact rational. -/
def ratToChars (q : ℚ) : List Char :=
  if q < 0 then '-' :: ratToCharsNN (-q) else ratToCharsNN q

/-- `ratToChars`, packaged as a `String`. -/
def ratToString (q : ℚ) : String :=
  String.mk (ratToChars q)

example : ratToString (23 / 100) = "0.23" := by decide
example : ratToString 30 = "30" := by decide
example : ratToString (30423 / 1000) = "30.423" := by decide

/-- JavaScript `String.prototype.replace` with a string pattern: replace
the first occurrence only. -/
def replaceFirstL (pat rep : List Char) : List Char → List Char
  | [] => []
  | c :: cs =>
    if pat.isPrefixOf (c :: cs) then rep ++ (c :: cs).drop pat.length
    else c :: replaceFirstL pat rep cs

/-- The `pad(n, s)` helper of `Time.toString`:
`String(s).padStart(n, 0)`. -/
def pad (n : Nat) (cs : List Char) : List Char :=
  List.replicate (n - cs.length) '0' ++ cs

/-- The final `.replace(/(hh|mm|ss|H|M|S)(\:)?/g, '')` pass of
`Time.toString`: scan left to right removing every leftover token, each
together with one optional `:` right after it. -/
def stripTokens : List Char → List Char
  | [] => []
  | 'h' :: 'h' :: ':' :: rest => stripTokens rest
  | 'h' :: 'h' :: rest => stripTokens rest
  | 'm' :: 'm' :: ':' :: rest => stripTokens rest
  | 'm' :: 'm' :: rest => stripTokens rest
  | 's' :: 's' :: ':' :: rest => stripTokens rest
  | 's' :: 's' :: rest => stripTokens rest
  | 'H' :: ':' :: rest => stripTokens rest
  | 'H' :: rest => stripTokens rest
  | 'M' :: ':' :: rest => stripTokens rest
  | 'M' :: rest => stripTokens rest
  | 'S' :: ':' :: rest => stripTokens rest
  | 'S' :: rest => stripTokens rest
  | c :: rest => c :: stripTokens rest

/-- JavaScript `String.prototype.trim`. -/
def trimChars (cs : List Char) : List Char :=
  ((cs.dropWhile Char.isWhitespace).reverse.dropWhile Char.isWhitespace).reverse

/-- The format-substitution chain of `Time.toString` in `src/index.js`,
applied to a computed breakdown (the numeric, non-"now" case). -/
def formatComputed (computed : Computed) (format : String) : String :=
  let fracSuffix : List Char :=
    if computed.ms ≠ 0 then '.' :: (ratToChars (computed.ms / 1000)).drop 2 else []
  let s1 := replaceFirstL ['S'] (ratToChars computed.totalSeconds) format.data
  let s2 := replaceFirstL ['M'] (ratToChars computed.totalMinutes) s1
  let s3 := replaceFirstL ['H'] (ratToChars computed.totalHours) s2
  let s4 := replaceFirstL ['h', 'h'] (pad 2 (ratToChars computed.hours)) s3
  let s5 := replaceFirstL ['m', 'm'] (pad 2 (ratToChars computed.minutes)) s4
  let s6 := replaceFirstL ['s', 's'] (pad 2 (ratToChars computed.seconds) ++ fracSuffix) s5
  let s7 := replaceFirstL ['h'] (ratToChars computed.hours) s6
  let s8 := replaceFirstL ['m'] (ratToChars computed.minutes) s7
  let s9 := replaceFirstL ['s'] (ratToChars computed.seconds ++ fracSuffix) s8
  String.mk (trimChars (stripTokens s9))

/-- The `Time` entity: a container for one JavaScript number. -/
structure Time where
  value : JSNum
deriving DecidableEq, Repr

/-- `Time#isNow`: `NOW === this.value`. -/
def Time.isNow (t : Time) : Bool :=
  match t.value with
  | .num q => q = NOW
  | .nan => false

/-- `Time#isValid`: `false === Number.isNaN(this.value)`. -/
def Time.isValid (t : Time) : Bool :=
  !t.value.isNaN

/-- `Time.from(arg)` from `src/index.js`.  A thrown JavaScript exception
is modelled as `Except.error`: `'hours' in arg` throws a `TypeError` when
`arg` is a truthy primitive that is neither a number nor a string (the
earlier branches catch numbers and strings, and falsy values short-circuit
the `arg && ...` guards). -/
def Time.fromVal : JSVal → Except String Time
  | .num q => .ok ⟨.num q⟩
  | .nan => .ok ⟨.nan⟩
  | .str s =>
    if s = "now" then .ok ⟨.num NOW⟩
    else
      match nptParse s with
      | some parsed =>
        -- `if (parsed)`: a parsed value of 0 is falsy and falls through
        -- to `new this(Number.NaN)`.
        if parsed ≠ 0 then .ok ⟨.num (parsed / 1000)⟩ else .ok ⟨.nan⟩
      | none => .ok ⟨.nan⟩
  | .boolv b => if b then .error "TypeError" else .ok ⟨.nan⟩
  | .timeObj v => .ok ⟨v⟩
  | .partsObj p =>
    if p.hours.isSome || p.minutes.isSome || p.seconds.isSome then
      .ok ⟨.num (getComputedSeconds p)⟩
    else .ok ⟨.nan⟩
  | .pairObj _ _ => .ok ⟨.nan⟩
  | .arr _ => .ok ⟨.nan⟩
  | .undef => .ok ⟨.nan⟩
  | .nullv => .ok ⟨.nan⟩

/-- The guard of `Time#set`: the method is a no-op when the input is the
NaN number or `null`/`undefined` (`false === Number.isNaN(value) &&
null != value`). -/
def setSkips : JSVal → Bool
  | .nan => true
  | .nullv => true
  | .undef => true
  | _ => false

/-- `Time#set(value)` from `src/index.js`; a thrown exception in
`Time.from` propagates. -/
def Time.set (t : Time) (v : JSVal) : Except String Time :=
  if setSkips v then .ok t
  else
    match Time.fromVal v with
    | .ok temp => .ok ⟨temp.value⟩
    | .error e => .error e

/-- `Time#toString(format)` from `src/index.js`; `none` models a call
with no argument, and `format || 'hh:mm:ss'` also replaces an empty
format string by the default. -/
def Time.toString (t : Time) (format : Option String) : String :=
  let fmt := match format with
    | some f => if f = "" then "hh:mm:ss" else f
    | none => "hh:mm:ss"
  if t.value = .num (-1) then "now"
  else
    match t.value with
    | .nan => ""
    | .num q => formatComputed (getComputedTime q) fmt

example : Time.toString ⟨.num (123 / 100)⟩ (some "ss") = "01.23" := by decide
example : Time.toString ⟨.num 21930⟩ none = "06:05:30" := by decide
example : Time.toString ⟨.num (30423 / 1000)⟩ none = "00:00:30.423" := by decide
example : Time.toString ⟨.num NOW⟩ (some "ss") = "now" := by decide
example : Time.toString ⟨.nan⟩ none = "" := by decide

/-- The `Range` entity: a start and a stop `Time`. -/
structure Range where
  start : Time
  stop : Time
deriving DecidableEq, Repr

/-- `Range#set(start, stop)` from `src/index.js`: always set `this.start`
through `Time#set`; only when `stop` is truthy set `this.stop`, and when
the freshly set stop compares `<` the start, call `this.stop.set(NaN)`
(kept verbatim here: whether that call changes anything is a theorem,
not part of the definition). -/
def Range.set (r : Range) (startv stopv : JSVal) : Except String Range :=
  match r.start.set startv with
  | .error e => .error e
  | .ok s =>
    if stopv.truthy then
      match r.stop.set stopv with
      | .error e => .error e
      | .ok st =>
        match (if jsLtb st.value s.value then st.set JSVal.nan else .ok st) with
        | .error e => .error e
        | .ok st' => .ok ⟨s, st'⟩
    else .ok ⟨s, r.stop⟩

/-- The `Range` constructor: both ends start as `Time.from()` (NaN), then
`set` runs on the arguments. -/
def Range.construct (startv stopv : JSVal) : Except String Range :=
  match Time.fromVal JSVal.undef, Time.fromVal JSVal.undef with
  | .ok s0, .ok t0 => Range.set ⟨s0, t0⟩ startv stopv
  | .error e, _ => .error e
  | .ok _, .error e => .error e

/-- `Range.from(...args)` from `src/index.js` (the name `from` is a Lean
keyword).  Dispatch: an array argument, an object argument (start/stop
are read off it; objects of other shapes have no such fields, yielding
`undefined`), a single string (split on `-`), a single other value
(start only, stop `null`), or positional `(start, stop)`. -/
def Range.fromArgs (args : List JSVal) : Except String Range :=
  match args.getD 0 JSVal.undef with
  | .arr l => Range.construct (l.getD 0 .undef) (l.getD 1 .undef)
  | .pairObj s t => Range.construct s t
  | .timeObj _ => Range.construct .undef .undef
  | .partsObj _ => Range.construct .undef .undef
  | a0 =>
    if args.length = 1 then
      match a0 with
      | .str s =>
        let parts := splitChar (· = '-') s.data
        Range.construct (.str (String.mk (parts.getD 0 [])))
          (match parts.get? 1 with
           | some p => .str (String.mk p)
           | none => .undef)
      | _ => Range.construct a0 .nullv
    else
      Range.construct (args.getD 0 .undef) (args.getD 1 .undef)

/-- `Range#toString(format)` from `src/index.js`.  String truthiness is
non-emptiness; `this.stop >= this.start` coerces both ends to numbers via
`valueOf`, so any NaN end makes it false. -/
def Range.toString (r : Range) (format : Option String) : String :=
  let start := r.start.toString format
  let stop := r.stop.toString format
  if start ≠ "" ∧ stop ≠ "" ∧ jsGeb r.stop.value r.start.value = true then
    start ++ "-" ++ stop
  else if start ≠ "" then start ++ "-"
  else if stop ≠ "" then "-" ++ stop
  else ""

/-- `Timecode#valueOf()` from `src/index.js` (`Timecode extends Range`
and adds only this reducer, so its state is a `Range`). -/
def Timecode.valueOf (tc : Range) : JSNum :=
  if tc.start.isNow then .num NOW
  else if !jsNumTruthy tc.start.value && tc.stop.isNow then .num NOW
  else if jsLtb tc.start.value tc.stop.value then jsSub tc.stop.value tc.start.value
  else tc.start.value

example : (Range.fromArgs [.str "now-"]).map (fun r => r.toString none) = .ok "now-" := by
  decide
example : (Range.fromArgs [.str "-now"]).map (fun r => r.toString none) = .ok "-now" := by
  decide
example : (Range.fromArgs [.num 30, .num 90]).map Timecode.valueOf = .ok (.num 60) := by
  decide
example : (Range.fromArgs [.str "now-"]).map Timecode.valueOf = .ok (.num NOW) := by
  decide
example :
    (Range.set ⟨⟨.nan⟩, ⟨.nan⟩⟩ (.num (30423 / 1000)) (.num (29987 / 1000))).map
      (fun r => r.toString none) = .ok "00:00:30.423-" := by decide
example :
    (Range.set ⟨⟨.nan⟩, ⟨.nan⟩⟩ (.num (30423 / 1000)) (.num (29987 / 1000))).map
      (fun r => r.stop.value) = .ok (.num (29987 / 1000)) := by decide

/-- Passing a computed breakdown object back into `getComputedSeconds`:
every field of the object is present. -/
def computedParts (c : Computed) : TimeParts :=
  { hours := some c.hours
    minutes := some c.minutes
    seconds := some c.seconds
    milliseconds := some c.milliseconds
    ms := some c.ms }

/-- Follows the specification's words for `Range#toString` (claim C7):
"If both format to non-empty strings AND stop ≥ start ..., render
`start-stop`.  Else if only start is non-empty, render `start-`.  Else if
only stop is non-empty, render `-stop`.  Else render `""`."  Used only to
compare the specification against `Range.toString`. -/
def rangeToStringSpec (r : Range) (format : Option String) : String :=
  let start := r.start.toString format
  let stop := r.stop.toString format
  if start ≠ "" ∧ stop ≠ "" ∧ jsGeb r.stop.value r.start.value = true then
    start ++ "-" ++ stop
  else if start ≠ "" ∧ stop = "" then start ++ "-"
  else if start = "" ∧ stop ≠ "" then "-" ++ stop
  else ""

/-- A JavaScript number is falsy exactly when it is NaN or zero. -/
theorem jsNumTruthy_eq_false_iff (v : JSNum) :
    jsNumTruthy v = false ↔ v = .nan ∨ v = .num 0 := by
  rcases v with _ | q <;> simp [jsNumTruthy]

/-- `Time#set` with the NaN number is a no-op: the guard
`false === Number.isNaN(value)` rejects it. -/
theorem time_set_nan (t : Time) : t.set .nan = .ok t := rfl

/-- `Time.from` returns an entity for every input except a truthy
primitive that is neither number nor string (modelled by `true`). -/
theorem time_fromVal_total (v : JSVal) (hv : v ≠ .boolv true) :
    ∃ t, Time.fromVal v = .ok t := by
  cases v with
  | boolv b =>
    cases b with
    | false => exact ⟨⟨.nan⟩, rfl⟩
    | true => exact absurd rfl hv
  | str s =>
    by_cases hn : s = "now"
    · exact ⟨⟨.num NOW⟩, by simp [Time.fromVal, hn]⟩
    · rcases hp : nptParse s with _ | q
      · exact ⟨⟨.nan⟩, by simp [Time.fromVal, hn, hp]⟩
      · by_cases hz : q = 0
        · exact ⟨⟨.nan⟩, by simp [Time.fromVal, hn, hp, hz]⟩
        · exact ⟨⟨.num (q / 1000)⟩, by simp [Time.fromVal, hn, hp, hz]⟩
  | partsObj p =>
    by_cases hp : p.hours.isSome || p.minutes.isSome || p.seconds.isSome
    · exact ⟨⟨.num (getComputedSeconds p)⟩, by simp [Time.fromVal, hp]⟩
    · exact ⟨⟨.nan⟩, by simp [Time.fromVal, hp]⟩
  | undef => exact ⟨_, rfl⟩
  | nullv => exact ⟨_, rfl⟩
  | nan => exact ⟨_, rfl⟩
  | num q => exact ⟨_, rfl⟩
  | timeObj tv => exact ⟨_, rfl⟩
  | pairObj a b => exact ⟨_, rfl⟩
  | arr l => exact ⟨_, rfl⟩

/-- `Time#set` likewise never throws except on such a primitive. -/
theorem time_set_total (t : Time) (v : JSVal) (hv : v ≠ .boolv true) :
    ∃ t', Time.set t v = .ok t' := by
  by_cases hs : setSkips v
  · exact ⟨t, by simp [Time.set, hs]⟩
  · obtain ⟨u, hu⟩ := time_fromVal_total v hv
    exact ⟨⟨u.value⟩, by simp [Time.set, hs, hu]⟩

/-- `parseFloat(x.toFixed(3))` moves a value by at most `1/2000`. -/
theorem abs_roundTo3_sub_le (x : ℚ) : |roundTo3 x - x| ≤ 1 / 2000 := by
  have h1 : (⌊x * 1000 + 1 / 2⌋ : ℚ) ≤ x * 1000 + 1 / 2 := Int.floor_le _
  have h2 : x * 1000 + 1 / 2 < (⌊x * 1000 + 1 / 2⌋ : ℚ) + 1 := Int.lt_floor_add_one _
  rw [roundTo3, abs_le]
  constructor <;> linarith

/-- C1: for every finite numeric seconds value `v`, `getComputedTime`
returns `totalSeconds = v`, `totalMinutes = v/60`, `totalHours = v/3600`,
`totalMilliseconds = v/1000` (the scaling quotient), `hours =
floor(totalHours)`, `minutes = floor((totalHours - hours) * 60)`,
`seconds = floor(totalSeconds - hours*3600 - minutes*60)`, `milliseconds
= 1000` times the fractional remainder rounded to three decimal places
before scaling, and `ms` equal to `milliseconds`. -/
theorem c1_getComputedTime_decomposition (v : ℚ) :
    (getComputedTime v).totalSeconds = v ∧
    (getComputedTime v).totalMinutes = v / 60 ∧
    (getComputedTime v).totalHours = v / 3600 ∧
    (getComputedTime v).totalMilliseconds = v / 1000 ∧
    (getComputedTime v).hours = (⌊(getComputedTime v).totalHours⌋ : ℚ) ∧
    (getComputedTime v).minutes =
      (⌊((getComputedTime v).totalHours - (getComputedTime v).hours) * 60⌋ : ℚ) ∧
    (getComputedTime v).seconds =
      (⌊(getComputedTime v).totalSeconds - (getComputedTime v).hours * 3600 -
          (getComputedTime v).minutes * 60⌋ : ℚ) ∧
    (getComputedTime v).milliseconds =
      1000 * roundTo3 ((getComputedTime v).totalSeconds -
        (getComputedTime v).hours * 3600 - (getComputedTime v).minutes * 60 -
        (getComputedTime v).seconds) ∧
    (getComputedTime v).ms = (getComputedTime v).milliseconds := by
  refine ⟨rfl, rfl, ?_, rfl, rfl, rfl, ?_, ?_, rfl⟩
  · show v / 60 / 60 = v / 3600
    rw [div_div]
    norm_num
  · simp only [getComputedTime]
    congr 2
    ring
  · simp only [getComputedTime]
    congr 2
    ring

/-- C5 (counterexample): when both `milliseconds` and `ms` are given,
`getComputedSeconds` uses `ms`, while the specification's formula (with
`milliseconds` taking precedence) gives a different result. -/
theorem c5_counterexample :
    getComputedSeconds { milliseconds := some 5, ms := some 7 } = 7 / 1000 ∧
    getComputedSecondsSpec { milliseconds := some 5, ms := some 7 } = 5 / 1000 ∧
    (7 / 1000 : ℚ) ≠ 5 / 1000 := by
  refine ⟨by decide, by decide, by norm_num⟩

/-- C5 (amended): `getComputedSeconds` computes `hours*3600 + minutes*60
+ seconds + (ms||0)/1000` with missing fields treated as `0`, where the
`ms` field — not `milliseconds` — takes precedence when both are given,
and `milliseconds` is used only when `ms` is absent. -/
theorem c5_getComputedSeconds (p : TimeParts) :
    getComputedSeconds p =
      p.hours.getD 0 * 3600 + p.minutes.getD 0 * 60 + p.seconds.getD 0 +
        (match p.ms with
         | some x => x
         | none => p.milliseconds.getD 0) / 1000 := by
  rcases p with ⟨h, m, s, mil, ms⟩
  rcases ms with _ | x <;> simp [getComputedSeconds] <;> ring

/-- C6: recomposing the decomposition of a non-negative seconds value
returns the value up to the rounding of the `milliseconds` field to three
decimal places, i.e. up to `1/2000` of a second. -/
theorem c6_recompose_decompose (v : ℚ) (h : 0 ≤ v) :
    |getComputedSeconds (computedParts (getComputedTime v)) - v| ≤ 1 / 2000 := by
  have key : getComputedSeconds (computedParts (getComputedTime v)) - v =
      roundTo3 (Int.fract (v - (⌊v / 60 / 60⌋ : ℚ) * 60 * 60 -
          (⌊(v / 60 / 60 - (⌊v / 60 / 60⌋ : ℚ)) * 60⌋ : ℚ) * 60)) -
        Int.fract (v - (⌊v / 60 / 60⌋ : ℚ) * 60 * 60 -
          (⌊(v / 60 / 60 - (⌊v / 60 / 60⌋ : ℚ)) * 60⌋ : ℚ) * 60) := by
    simp only [getComputedSeconds, computedParts, getComputedTime, Int.fract,
      Option.getD_some]
    ring
  rw [key]
  exact abs_roundTo3_sub_le _

/-- C6 (witness): the round-trip bound at `v = 1.23`. -/
theorem c6_witness :
    (0 : ℚ) ≤ 123 / 100 ∧
    |getComputedSeconds (computedParts (getComputedTime (123 / 100))) - 123 / 100| ≤
      1 / 2000 :=
  ⟨by norm_num, c6_recompose_decompose (123 / 100) (by norm_num)⟩

/-- When `Range#set` succeeds, the resulting start is exactly what
`Time#set` produced for the start argument. -/
theorem range_set_start (r0 : Range) (a b : JSVal) (r : Range)
    (h : Range.set r0 a b = .ok r) : r0.start.set a = .ok r.start := by
  unfold Range.set at h
  cases hs : r0.start.set a with
  | error e => rw [hs] at h; cases h
  | ok s =>
    rw [hs] at h
    dsimp only at h
    by_cases hb : b.truthy
    · rw [if_pos hb] at h
      cases hst : r0.stop.set b with
      | error e => rw [hst] at h; cases h
      | ok st =>
        rw [hst] at h
        dsimp only at h
        rw [time_set_nan st, ite_self] at h
        dsimp only at h
        injection h with h
        subst h
        rfl
    · rw [if_neg hb] at h
      injection h with h
      subst h
      rfl

/-- When `Range#set` succeeds on a truthy stop argument, the resulting
stop is exactly what `Time#set` produced for it: the subsequent
`this.stop.set(NaN)` call never changes it. -/
theorem range_set_stop_truthy (r0 : Range) (a b : JSVal) (r : Range)
    (hb : b.truthy = true) (h : Range.set r0 a b = .ok r) :
    r0.stop.set b = .ok r.stop := by
  unfold Range.set at h
  cases hs : r0.start.set a with
  | error e => rw [hs] at h; cases h
  | ok s =>
    rw [hs] at h
    dsimp only at h
    rw [if_pos hb] at h
    cases hst : r0.stop.set b with
    | error e => rw [hst] at h; cases h
    | ok st =>
      rw [hst] at h
      dsimp only at h
      rw [time_set_nan st, ite_self] at h
      dsimp only at h
      injection h with h
      subst h
      rfl

/-- When `Range#set` succeeds on a falsy stop argument, the stop end is
left untouched. -/
theorem range_set_stop_falsy (r0 : Range) (a b : JSVal) (r : Range)
    (hb : b.truthy = false) (h : Range.set r0 a b = .ok r) :
    r.stop = r0.stop := by
  unfold Range.set at h
  cases hs : r0.start.set a with
  | error e => rw [hs] at h; cases h
  | ok s =>
    rw [hs] at h
    dsimp only at h
    rw [hb] at h
    simp only [Bool.false_eq_true, if_false] at h
    injection h with h
    subst h
    rfl

/-- A number that is not falsy is truthy. -/
theorem jsNumTruthy_of_not (v : JSNum) (h : ¬(v = .nan ∨ v = .num 0)) :
    jsNumTruthy v = true := by
  by_contra hc
  exact h ((jsNumTruthy_eq_false_iff v).mp (by simpa using hc))

/-- C2: `Timecode#valueOf` returns the "now" sentinel when start is
"now"; the sentinel when start is falsy (unset/NaN or zero) and stop is
"now"; `stop - start` when start `<` stop numerically; and otherwise
start's raw value — checked in exactly that order.  In particular
`Timecode.from(30, 90).valueOf()` is `60` and
`Timecode.from('now-').valueOf()` is the sentinel `-1`. -/
theorem c2_timecode_valueOf (tc : Range) :
    (tc.start.isNow = true → Timecode.valueOf tc = .num NOW) ∧
    (tc.start.isNow = false →
        (tc.start.value = .nan ∨ tc.start.value = .num 0) →
        tc.stop.isNow = true → Timecode.valueOf tc = .num NOW) ∧
    (tc.start.isNow = false →
        (¬(tc.start.value = .nan ∨ tc.start.value = .num 0) ∨ tc.stop.isNow = false) →
        jsLtb tc.start.value tc.stop.value = true →
        Timecode.valueOf tc = jsSub tc.stop.value tc.start.value) ∧
    (tc.start.isNow = false →
        (¬(tc.start.value = .nan ∨ tc.start.value = .num 0) ∨ tc.stop.isNow = false) →
        jsLtb tc.start.value tc.stop.value = false →
        Timecode.valueOf tc = tc.start.value) ∧
    (Range.fromArgs [.num 30, .num 90]).map Timecode.valueOf = .ok (.num 60) ∧
    (Range.fromArgs [.str "now-"]).map Timecode.valueOf = .ok (.num NOW) := by
  have hand : ∀ h2 : ¬(tc.start.value = .nan ∨ tc.start.value = .num 0) ∨
      tc.stop.isNow = false, (!jsNumTruthy tc.start.value && tc.stop.isNow) = false := by
    intro h2
    rcases h2 with h2 | h2
    · simp [jsNumTruthy_of_not _ h2]
    · simp [h2]
  refine ⟨?_, ?_, ?_, ?_, by decide, by decide⟩
  · intro h1
    simp [Timecode.valueOf, h1]
  · intro h1 h2 h3
    simp [Timecode.valueOf, h1, (jsNumTruthy_eq_false_iff _).mpr h2, h3]
  · intro h1 h2 h3
    simp [Timecode.valueOf, h1, hand h2, h3]
  · intro h1 h2 h3
    simp [Timecode.valueOf, h1, hand h2, h3]

/-- C2 (witness): the duration branch at the range (30, 90). -/
theorem c2_witness :
    Timecode.valueOf ⟨⟨.num 30⟩, ⟨.num 90⟩⟩ = jsSub (.num 90) (.num 30) :=
  (c2_timecode_valueOf ⟨⟨.num 30⟩, ⟨.num 90⟩⟩).2.2.1 (by decide)
    (Or.inl (by decide)) (by decide)

/-- C3 (counterexample): `set(30.423, 29.987)` does not force the stop
end to Invalid — stop ends up holding 29.987 and stays valid, because
`this.stop.set(Number.NaN)` is rejected by `Time#set`'s NaN guard — even
though stop `<` start numerically. -/
theorem c3_counterexample :
    (Range.set ⟨⟨.nan⟩, ⟨.nan⟩⟩ (.num (30423 / 1000)) (.num (29987 / 1000))).map
        (fun r => r.stop.value) = .ok (.num (29987 / 1000)) ∧
    (Range.set ⟨⟨.nan⟩, ⟨.nan⟩⟩ (.num (30423 / 1000)) (.num (29987 / 1000))).map
        (fun r => r.stop.isValid) = .ok true ∧
    jsLtb (.num (29987 / 1000)) (.num (30423 / 1000)) = true := by
  refine ⟨by decide, by decide, by decide⟩

/-- C3 (amended): `Range#set` sets start via `Time#set` always and
touches stop only when the stop argument is truthy; when it is truthy the
resulting stop is exactly what `Time#set` produced — the conditional
`this.stop.set(Number.NaN)` that runs when stop `<` start is a no-op
because `Time#set` ignores NaN input — and `set(30.423, 29.987)` still
yields `toString() === '00:00:30.423-'`, through `Range#toString`'s
`stop >= start` check rather than through stop invalidation. -/
theorem c3_range_set (r0 : Range) (startv stopv : JSVal) :
    (∀ r, Range.set r0 startv stopv = .ok r → r0.start.set startv = .ok r.start) ∧
    (stopv.truthy = false → ∀ r, Range.set r0 startv stopv = .ok r → r.stop = r0.stop) ∧
    (stopv.truthy = true → ∀ r, Range.set r0 startv stopv = .ok r →
        r0.stop.set stopv = .ok r.stop) ∧
    (∀ t : Time, t.set .nan = .ok t) ∧
    (Range.set ⟨⟨.nan⟩, ⟨.nan⟩⟩ (.num (30423 / 1000)) (.num (29987 / 1000))).map
        (fun r => r.toString none) = .ok "00:00:30.423-" := by
  refine ⟨?_, ?_, ?_, time_set_nan, by decide⟩
  · intro r h
    exact range_set_start r0 startv stopv r h
  · intro hb r h
    exact range_set_stop_falsy r0 startv stopv r hb h
  · intro hb r h
    exact range_set_stop_truthy r0 startv stopv r hb h

/-- C3 (witness): with the truthy stop 20 and start 30, the resulting
stop is what `Time#set` produced (20, not NaN). -/
theorem c3_witness :
    Time.set ⟨.nan⟩ (.num 20) =
      .ok (⟨⟨.num 30⟩, ⟨.num 20⟩⟩ : Range).stop :=
  (c3_range_set ⟨⟨.nan⟩, ⟨.nan⟩⟩ (.num 30) (.num 20)).2.2.1 (by decide)
    ⟨⟨.num 30⟩, ⟨.num 20⟩⟩ (by decide)

/-- C4: a "now" end is never invalidated by the other end: setting a
range with "now" at either end keeps the sentinel there whatever the
other end is, `Range.from('now-')` and `Range.from('-now')` round-trip,
and a numeric start with stop `'now'` leaves `stop.isNow` true (the
attempted stop invalidation, which does fire when stop `<` start, is a
no-op and in particular never clears a "now" stop). -/
theorem c4_now_never_invalidated (other : JSVal) :
    (∀ r0 r, Range.set r0 (.str "now") other = .ok r → r.start.value = .num NOW) ∧
    (∀ r0 r, Range.set r0 other (.str "now") = .ok r → r.stop.value = .num NOW) ∧
    (Range.fromArgs [.str "now-"]).map (fun r => r.toString none) = .ok "now-" ∧
    (Range.fromArgs [.str "-now"]).map (fun r => r.toString none) = .ok "-now" ∧
    (Range.construct (.num 30) (.str "now")).map (fun r => r.stop.isNow) = .ok true := by
  refine ⟨?_, ?_, by decide, by decide, by decide⟩
  · intro r0 r h
    have h2 := range_set_start r0 (.str "now") other r h
    have hs : r0.start.set (.str "now") = .ok ⟨.num NOW⟩ := rfl
    rw [hs] at h2
    injection h2 with h2
    rw [← h2]
  · intro r0 r h
    have h2 := range_set_stop_truthy r0 other (.str "now") r rfl h
    have hs : r0.stop.set (.str "now") = .ok ⟨.num NOW⟩ := rfl
    rw [hs] at h2
    injection h2 with h2
    rw [← h2]

/-- C4 (witness): a range set to (30, 'now') keeps the sentinel stop. -/
theorem c4_witness :
    (⟨⟨.num 30⟩, ⟨.num NOW⟩⟩ : Range).stop.value = .num NOW :=
  (c4_now_never_invalidated (.num 30)).2.1 ⟨⟨.nan⟩, ⟨.nan⟩⟩
    ⟨⟨.num 30⟩, ⟨.num NOW⟩⟩ (by decide)

/-- C7 (counterexample): a range whose two ends both render non-empty
but with stop `<` start (reachable, since stop is not invalidated):
`Range#toString` renders `"start-"`, while the specification's chain
("else if only the start string is non-empty") renders `""`. -/
theorem c7_counterexample :
    (Range.construct (.num 30) (.num 20)).map (fun r => r.toString none) =
      .ok "00:00:30-" ∧
    (Range.construct (.num 30) (.num 20)).map (fun r => rangeToStringSpec r none) =
      .ok "" ∧
    "00:00:30-" ≠ "" := by
  refine ⟨by decide, by decide, by decide⟩

/-- C7 (amended): `Range#toString` formats both ends independently; it
renders `"start-stop"` when both strings are non-empty and stop `>=`
start under numeric coercion, `"start-"` whenever the start string is
non-empty otherwise (even when the stop string is also non-empty but the
comparison fails), `"-stop"` when only the stop string is non-empty, and
`""` otherwise. -/
theorem c7_range_toString (r : Range) (format : Option String) :
    (r.start.toString format ≠ "" → r.stop.toString format ≠ "" →
        jsGeb r.stop.value r.start.value = true →
        Range.toString r format =
          r.start.toString format ++ "-" ++ r.stop.toString format) ∧
    (r.start.toString format ≠ "" →
        (r.stop.toString format = "" ∨ jsGeb r.stop.value r.start.value = false) →
        Range.toString r format = r.start.toString format ++ "-") ∧
    (r.start.toString format = "" → r.stop.toString format ≠ "" →
        Range.toString r format = "-" ++ r.stop.toString format) ∧
    (r.start.toString format = "" → r.stop.toString format = "" →
        Range.toString r format = "") := by
  refine ⟨?_, ?_, ?_, ?_⟩
  · intro h1 h2 h3
    unfold Range.toString
    rw [if_pos ⟨h1, h2, h3⟩]
  · intro h1 h2
    have hc : ¬(r.start.toString format ≠ "" ∧ r.stop.toString format ≠ "" ∧
        jsGeb r.stop.value r.start.value = true) := by
      rintro ⟨-, ht, hg⟩
      rcases h2 with h2 | h2
      · exact ht h2
      · rw [h2] at hg
        cases hg
    unfold Range.toString
    rw [if_neg hc, if_pos h1]
  · intro h1 h2
    have hc : ¬(r.start.toString format ≠ "" ∧ r.stop.toString format ≠ "" ∧
        jsGeb r.stop.value r.start.value = true) := by
      rintro ⟨hs, -, -⟩
      exact hs h1
    unfold Range.toString
    rw [if_neg hc, if_neg (by simpa using h1), if_pos h2]
  · intro h1 h2
    have hc : ¬(r.start.toString format ≠ "" ∧ r.stop.toString format ≠ "" ∧
        jsGeb r.stop.value r.start.value = true) := by
      rintro ⟨hs, -, -⟩
      exact hs h1
    unfold Range.toString
    rw [if_neg hc, if_neg (by simpa using h1), if_neg (by simpa using h2)]

/-- C7 (witness): the ordered two-ended branch at the range (30, 90). -/
theorem c7_witness :
    Range.toString ⟨⟨.num 30⟩, ⟨.num 90⟩⟩ none = "00:00:30-00:01:30" :=
  (c7_range_toString ⟨⟨.num 30⟩, ⟨.num 90⟩⟩ none).1 (by decide) (by decide) (by decide)

/-- C8 (counterexample): `Time.from(true)` reaches
`'hours' in arg` with a truthy non-object and throws a `TypeError`
instead of returning an Invalid Time, and `Range.from(true)` propagates
it; `from` is therefore not total over all inputs. -/
theorem c8_counterexample :
    Time.fromVal (.boolv true) = .error "TypeError" ∧
    Range.fromArgs [.boolv true] = .error "TypeError" :=
  ⟨rfl, rfl⟩

/-- C8 (amended): `Time.from` (and `Range`'s construction) never throws
and returns an entity for every input except a truthy primitive that is
neither a number nor a string (modelled by `true`), for which the
`'hours' in arg` membership test throws a `TypeError`; unparseable
strings degrade to an Invalid Time whose value is NaN, whose `isValid`
is false and whose `toString()` is the empty string. -/
theorem c8_total_except_truthy_primitive (v : JSVal) (hv : v ≠ .boolv true) :
    (∃ t, Time.fromVal v = .ok t) ∧
    (∀ s : String, s ≠ "now" → nptParse s = none →
        Time.fromVal (.str s) = .ok ⟨.nan⟩) ∧
    (∀ t : Time, t.value = .nan → t.isValid = false ∧ ∀ fmt, t.toString fmt = "") ∧
    (∀ a b : JSVal, a ≠ .boolv true → b ≠ .boolv true →
        ∃ r, Range.construct a b = .ok r) := by
  refine ⟨time_fromVal_total v hv, ?_, ?_, ?_⟩
  · intro s hn hp
    simp [Time.fromVal, hn, hp]
  · intro t ht
    refine ⟨by simp [Time.isValid, ht, JSNum.isNaN], ?_⟩
    intro fmt
    simp [Time.toString, ht]
  · intro a b ha hb
    obtain ⟨s, hs⟩ := time_set_total ⟨.nan⟩ a ha
    obtain ⟨st, hst⟩ := time_set_total ⟨.nan⟩ b hb
    show ∃ r, Range.set ⟨⟨.nan⟩, ⟨.nan⟩⟩ a b = .ok r
    unfold Range.set
    dsimp only
    rw [hs]
    dsimp only
    by_cases hbt : b.truthy
    · rw [if_pos hbt, hst]
      dsimp only
      rw [time_set_nan st, ite_self]
      exact ⟨_, rfl⟩
    · rw [if_neg hbt]
      exact ⟨_, rfl⟩

/-- C8 (witness): `Time.from()` (undefined input) yields an entity. -/
theorem c8_witness : ∃ t, Time.fromVal JSVal.undef = Except.ok t :=
  (c8_total_except_truthy_primitive JSVal.undef (fun h => JSVal.noConfusion h)).1

/-- C9: `Time#toString` returns the literal `"now"` for a Now time and
the empty string for an Invalid time under every format, defaults the
format to `'hh:mm:ss'`, and substitutes the format tokens against the
computed breakdown so that `Time.from(1.23).toString('ss') === '01.23'`
and `Time.from(21930).toString('hh:mm:ss') === '06:05:30'`. -/
theorem c9_time_toString :
    (∀ fmt, Time.toString ⟨.num NOW⟩ fmt = "now") ∧
    (∀ fmt, Time.toString ⟨.nan⟩ fmt = "") ∧
    (∀ t : Time, t.toString none = t.toString (some "hh:mm:ss")) ∧
    (Time.fromVal (.num (123 / 100))).map (fun t => t.toString (some "ss")) =
      .ok "01.23" ∧
    (Time.fromVal (.num 21930)).map (fun t => t.toString (some "hh:mm:ss")) =
      .ok "06:05:30" := by
  refine ⟨fun fmt => rfl, fun fmt => rfl, ?_, by decide, by decide⟩
  intro t
  rcases t with ⟨v⟩
  rcases v with _ | q <;> rfl

/-- C10: the "now" sentinel is just the number `-1` at the public
interface: `Time.from(-1)` has `isNow` true and prints `"now"`, while
every other negative non-NaN number yields an ordinary valid numeric
time with `isNow` false. -/
theorem c10_minus_one_isNow :
    (Time.fromVal (.num (-1))).map Time.isNow = .ok true ∧
    (Time.fromVal (.num (-1))).map (fun t => t.toString none) = .ok "now" ∧
    (∀ q : ℚ, q < 0 → q ≠ -1 →
      (Time.fromVal (.num q)).map Time.isNow = .ok false ∧
      (Time.fromVal (.num q)).map Time.isValid = .ok true) := by
  refine ⟨by decide, by decide, ?_⟩
  intro q hneg hne
  constructor
  · show Except.ok (Time.isNow ⟨.num q⟩) = .ok false
    simp [Time.isNow, NOW, hne]
  · rfl

/-- C10 (witness): the negative number `-2` is not "now" but is valid. -/
theorem c10_witness :
    (Time.fromVal (.num (-2))).map Time.isNow = .ok false ∧
    (Time.fromVal (.num (-2))).map Time.isValid = .ok true :=
  c10_minus_one_isNow.2.2 (-2) (by norm_num) (by norm_num)
